import Mathlib

/-!
Shallow embedding of `mv::memory_view` (include/memory_view.hpp) and its
pointer-backed source, together with theorems checking the claims of the
specification against it.

Modelling conventions:
* Memory is a byte store `mem : Int → Nat` (each value a byte `< 256` for
  meaningful inputs); a `const char*` is an address `Int` into that store.
* `std::ptrdiff_t` is `Int`; `std::size_t` results are `Nat`, and the
  conversion `ptrdiff_t → size_t` in `memory_view::size` wraps modulo `2^64`.
* Operations that may call `source.fetch` are embedded in a traced form
  returning the list of `(begin, end)` arguments of every fetch performed,
  so that claims about when fetches happen are statable.
* C++ field types passed to `unpack`/`as_span` are represented by `CTy`,
  carrying the byte size and alignment of the corresponding C++ type on the
  LP64 platforms the repository targets; scalar values decode little-endian.
-/

set_option autoImplicit false

namespace mv

/-- A C++ field type usable with `unpack`/`as`/`as_span`: fixed-width signed
integers and `std::array<char, n>`. -/
inductive CTy where
  | i8
  | i16
  | i32
  | i64
  | charArr (n : Nat)
deriving DecidableEq

/-- `sizeof(T)` for a field type. -/
def CTy.byteSize : CTy → Nat
  | .i8 => 1
  | .i16 => 2
  | .i32 => 4
  | .i64 => 8
  | .charArr n => n

/-- `alignof(T)` for a field type (LP64: scalars are size-aligned, `char`
arrays are byte-aligned). -/
def CTy.byteAlign : CTy → Nat
  | .i8 => 1
  | .i16 => 2
  | .i32 => 4
  | .i64 => 8
  | .charArr _ => 1

/-- Round `n` up to the next multiple of `a`. -/
def alignUp (n a : Nat) : Nat := ((n + a - 1) / a) * a

/-- Models `sizeof(std::tuple<T...>)` as used by `memory_view::unpack` and
`memory_view::unpack_head`: under the Itanium ABI (libstdc++, also MSVC)
`std::tuple` stores its elements in reverse declaration order with ordinary
struct layout, so the size is the aligned struct size of the reversed field
list (and `sizeof(std::tuple<>)` is 1).  This is not in general the sum of
the field sizes: alignment padding can make it strictly larger. -/
def tupleSizeof (ts : List CTy) : Nat :=
  let ordered := ts.reverse
  let bytes := ordered.foldl (fun off t => alignUp off t.byteAlign + t.byteSize) 0
  let al := ordered.foldl (fun a t => max a t.byteAlign) 1
  max (alignUp bytes al) 1

/-- A decoded field value: an integer (for the fixed-width types) or the raw
bytes of a `char` array. -/
inductive CVal where
  | int (i : Int)
  | arr (bs : List Nat)
deriving DecidableEq

/-- Little-endian read of `n` bytes at address `a`. -/
def decodeLE (mem : Int → Nat) (a : Int) : Nat → Nat
  | 0 => 0
  | n + 1 => mem a + 256 * decodeLE mem (a + 1) n

/-- Twos-complement interpretation of a `w`-byte unsigned value. -/
def toSigned (w : Nat) (v : Nat) : Int :=
  if v < 2 ^ (8 * w - 1) then (v : Int) else (v : Int) - 2 ^ (8 * w)

/-- `*reinterpret_cast<const T*>(p)`: decode one value of type `t` at
address `a`. -/
def decodeVal (mem : Int → Nat) (a : Int) : CTy → CVal
  | .i8 => .int (toSigned 1 (decodeLE mem a 1))
  | .i16 => .int (toSigned 2 (decodeLE mem a 2))
  | .i32 => .int (toSigned 4 (decodeLE mem a 4))
  | .i64 => .int (toSigned 8 (decodeLE mem a 8))
  | .charArr n => .arr ((List.range n).map fun k => mem (a + (k : Int)))

/-- The type-erased source interface `memory_view::source_concept`:
`fetch` returns the address of the first byte of the requested range,
`size` the total length of the source. -/
structure source_concept where
  fetch : Int → Int → Int
  size : Nat

/-- `mv::memory_view`: a type-erased source handle plus a `[begin_, end_)`
window.  Default construction (`memory_view() = default`) leaves the member
initialisers `self_ = nullptr`, `begin_ = 0`, `end_ = 0`. -/
structure memory_view where
  self_ : Option source_concept := none
  begin_ : Int := 0
  end_ : Int := 0

/-- A default-constructed `memory_view`. -/
def memory_view.mkDefault : memory_view := {}

/-- The constructor `memory_view(source_type source)`: wraps the source and
sets `begin_ = 0`, `end_ = self_->size()`. -/
def memory_view.ofSource (s : source_concept) : memory_view :=
  { self_ := some s, begin_ := 0, end_ := (s.size : Int) }

/-- `memory_view::as_ptr`, traced: `return self_->fetch(begin_, end_);`.
The body performs exactly one fetch, with the current window as arguments;
a null `self_` (default-constructed view) has no defined result. -/
def memory_view.as_ptrT (v : memory_view) : Option Int × List (Int × Int) :=
  match v.self_ with
  | none => (none, [])
  | some s => (some (s.fetch v.begin_ v.end_), [(v.begin_, v.end_)])

/-- `memory_view::as_ptr`: the returned pointer. -/
def memory_view.as_ptr (v : memory_view) : Option Int := v.as_ptrT.1

/-- `memory_view::size`: `return end_ - begin_;` — a `ptrdiff_t` difference
converted to `std::size_t`, i.e. reduced modulo `2^64`. -/
def memory_view.size (v : memory_view) : Nat :=
  ((v.end_ - v.begin_) % (2 ^ 64 : Int)).toNat

/-- `memory_view::empty`: `return size() == 0;`. -/
def memory_view.empty (v : memory_view) : Bool := v.size == 0

/-- `operator()(first, last)`: copy the view, then
`copy.begin_ += first; copy.end_ = begin_ + last;` (the original `begin_`). -/
def memory_view.slice (v : memory_view) (first last : Int) : memory_view :=
  { v with begin_ := v.begin_ + first, end_ := v.begin_ + last }

/-- `operator()(first, mv::end)`: copy the view, then `copy.begin_ += first;`. -/
def memory_view.sliceFrom (v : memory_view) (first : Int) : memory_view :=
  { v with begin_ := v.begin_ + first }

/-- `operator()(mv::begin, last)`: copy the view, then
`copy.end_ = begin_ + last;`. -/
def memory_view.sliceTo (v : memory_view) (last : Int) : memory_view :=
  { v with end_ := v.begin_ + last }

/-- `operator()(first, last)`, traced: the body only copies and adjusts the
`begin_`/`end_` members, so it performs no fetch. -/
def memory_view.sliceT (v : memory_view) (first last : Int) :
    memory_view × List (Int × Int) :=
  (v.slice first last, [])

/-- `operator()(first, mv::end)`, traced: no fetch occurs. -/
def memory_view.sliceFromT (v : memory_view) (first : Int) :
    memory_view × List (Int × Int) :=
  (v.sliceFrom first, [])

/-- `operator()(mv::begin, last)`, traced: no fetch occurs. -/
def memory_view.sliceToT (v : memory_view) (last : Int) :
    memory_view × List (Int × Int) :=
  (v.sliceTo last, [])

/-- `memory_view::as<T>`, traced: one `as_ptr` fetch, then decode a `T` at
the returned pointer. -/
def memory_view.asT (mem : Int → Nat) (v : memory_view) (t : CTy) :
    Option CVal × List (Int × Int) :=
  let r := v.as_ptrT
  (r.1.map fun p => decodeVal mem p t, r.2)

/-- `memory_view::as_span<T>`, traced: one `as_ptr` fetch; the span covers
`size() / sizeof(T)` elements, element `k` read at `ptr + k * sizeof(T)`. -/
def memory_view.as_spanT (mem : Int → Nat) (v : memory_view) (t : CTy) :
    Option (List CVal) × List (Int × Int) :=
  let r := v.as_ptrT
  (r.1.map fun p =>
    (List.range (v.size / t.byteSize)).map fun k =>
      decodeVal mem (p + (k * t.byteSize : Nat)) t, r.2)

/-- `memory_view::cast_and_move<T>`: `offset -= sizeof(T);` then dereference
`ptr + offset`; returns the decoded value and the updated offset. -/
def memory_view.cast_and_move (mem : Int → Nat) (t : CTy) (ptr : Int)
    (offset : Int) : CVal × Int :=
  let offset := offset - (t.byteSize : Int)
  (decodeVal mem (ptr + offset) t, offset)

/-- The pack expansion `std::make_tuple(*cast_and_move<T>(ptr, offset)...)`:
the C++ standard leaves the evaluation order of the arguments unspecified;
the embedding fixes the right-to-left order that GCC uses and that the
tests of the repository rely on (the `offset` updates visit the fields from last
to first).  The result list is in declaration order, and the second
component is the final offset. -/
def memory_view.unpackFields (mem : Int → Nat) (ptr : Int) :
    List CTy → Int → List CVal × Int
  | [], offset => ([], offset)
  | t :: ts, offset =>
    let rest := memory_view.unpackFields mem ptr ts offset
    let fld := memory_view.cast_and_move mem t ptr rest.2
    (fld.1 :: rest.1, fld.2)

/-- `memory_view::unpack<T...>`, traced: `offset = sizeof(std::tuple<T...>)`,
one `as_ptr` fetch, then the `cast_and_move` pack expansion. -/
def memory_view.unpackT (mem : Int → Nat) (v : memory_view) (ts : List CTy) :
    Option (List CVal) × List (Int × Int) :=
  let offset : Int := (tupleSizeof ts : Nat)
  let r := v.as_ptrT
  (r.1.map fun p => (memory_view.unpackFields mem p ts offset).1, r.2)

/-- `memory_view::unpack<T...>`: the returned tuple, as a list in
declaration order. -/
def memory_view.unpack (mem : Int → Nat) (v : memory_view) (ts : List CTy) :
    Option (List CVal) :=
  (v.unpackT mem ts).1

/-- `memory_view::unpack_head<T...>`, traced: `offset` starts at
`sizeof(std::tuple<T...>)`; the tail is `(*this)(offset, mv::end)` computed
before the fields are read; then one `as_ptr` fetch and the same pack
expansion as `unpack`. -/
def memory_view.unpack_headT (mem : Int → Nat) (v : memory_view)
    (ts : List CTy) :
    Option (List CVal × memory_view) × List (Int × Int) :=
  let offset : Int := (tupleSizeof ts : Nat)
  let tail := v.sliceFrom offset
  let r := v.as_ptrT
  (r.1.map fun p => ((memory_view.unpackFields mem p ts offset).1, tail), r.2)

/-- `mv::ptr_memory_source`: a raw base address and a length. -/
structure ptr_memory_source where
  ptr_ : Int := 0
  len_ : Nat := 0

/-- `ptr_memory_source::fetch`: `return std::next(ptr_, begin);`, i.e.
`ptr_ + begin`; the `end` argument is ignored and no anchor exists (the
return type is a bare pointer). -/
def ptr_memory_source.fetch (s : ptr_memory_source) (b _e : Int) : Int :=
  s.ptr_ + b

/-- `ptr_memory_source::size`: `return len_;`. -/
def ptr_memory_source.size (s : ptr_memory_source) : Nat := s.len_

/-- The `memory_view::model<ptr_memory_source>` adapter: forwards `fetch`
and `size` to the wrapped source. -/
def ptr_memory_source.toConcept (s : ptr_memory_source) : source_concept :=
  { fetch := s.fetch, size := s.size }

/-- Byte store holding the test buffer `{1, 2, 3, 4}` at addresses 0..3. -/
def demoMem : Int → Nat := fun a => [1, 2, 3, 4].getD a.toNat 0

/-- The full view over the 4-byte buffer, as in the unit tests. -/
def demoView : memory_view :=
  memory_view.ofSource (ptr_memory_source.toConcept { ptr_ := 0, len_ := 4 })

/-- Byte store holding `{1, 2, 3, 4, 5, 6, 7, 8}` at addresses 0..7. -/
def mem8 : Int → Nat := fun a => [1, 2, 3, 4, 5, 6, 7, 8].getD a.toNat 0

/-- The full view over the 8-byte buffer. -/
def view8 : memory_view :=
  memory_view.ofSource (ptr_memory_source.toConcept { ptr_ := 0, len_ := 8 })

/-- For a well-formed window (`begin_ ≤ end_`, width below `2^64`) the
`size_t` wrap in `memory_view::size` is the identity. -/
theorem size_eq_of_window (v : memory_view) (hbe : v.begin_ ≤ v.end_)
    (hw : v.end_ - v.begin_ < 2 ^ 64) : (v.size : Int) = v.end_ - v.begin_ := by
  have h0 : (0 : Int) ≤ v.end_ - v.begin_ := by omega
  unfold memory_view.size
  rw [Int.emod_eq_of_lt h0 hw]
  exact Int.toNat_of_nonneg h0

/-- C1: the claim says `unpack<T1..Tn>` reads field `i` at the offset equal
to the sum of the sizes of the preceding fields and consumes the sum of all
field sizes.  The code instead starts from `offset = sizeof(std::tuple<T...>)`,
which exceeds that sum whenever the tuple type carries alignment padding:
for `unpack<int8_t, int32_t>` on the 8-byte buffer `[1,..,8]`,
`sizeof(std::tuple<int8_t,int32_t>) = 8` while the fields occupy 5 bytes, so
the code reads the `int8` at offset 3 (value 4) and the `int32` at offset 4
(value 134678021), not the claimed offset-0 value 1 and offset-1
little-endian value 84148994. -/
theorem C1_unpack_padding_bug :
    tupleSizeof [CTy.i8, CTy.i32] = 8
    ∧ CTy.i8.byteSize + CTy.i32.byteSize = 5
    ∧ memory_view.unpack mem8 view8 [.i8, .i32]
        = some [.int 4, .int 134678021]
    ∧ memory_view.unpack mem8 view8 [.i8, .i32]
        ≠ some [.int 1, .int 84148994] := by decide

/-- C2 counterexample: the claim says the first decode on a View fetches
once and every later decode on the same View reuses a cached result without
fetching again, so two consecutive `as<T>` calls on `demoView` would perform
one fetch in total.  The View has no cache member and `as_ptr` fetches
unconditionally: the combined trace of the two calls has two fetch events,
not one. -/
theorem C2_no_caching_counterexample :
    ¬ ((memory_view.asT demoMem demoView .i8).2
        ++ (memory_view.asT demoMem demoView .i8).2).length = 1 := by decide

/-- C2 (amended): every decode operation (`as`, `as_span`, `unpack`) on a
View with a source performs exactly one fetch per call, with the current
`[begin_, end_)` window as arguments; nothing is cached, so each call
fetches anew. -/
theorem C2_one_fetch_per_decode_call (mem : Int → Nat) (v : memory_view)
    (t : CTy) (ts : List CTy) (s : source_concept) (h : v.self_ = some s) :
    (memory_view.asT mem v t).2 = [(v.begin_, v.end_)]
    ∧ (memory_view.as_spanT mem v t).2 = [(v.begin_, v.end_)]
    ∧ (memory_view.unpackT mem v ts).2 = [(v.begin_, v.end_)] := by
  simp [memory_view.asT, memory_view.as_spanT, memory_view.unpackT,
    memory_view.as_ptrT, h]

/-- Witness for C2: on the concrete 4-byte view each decode call fetches
exactly once with the window `(0, 4)`. -/
theorem C2_one_fetch_per_decode_call_witness :
    (memory_view.asT demoMem demoView .i8).2 = [(0, 4)]
    ∧ (memory_view.as_spanT demoMem demoView .i8).2 = [(0, 4)]
    ∧ (memory_view.unpackT demoMem demoView [.i8]).2 = [(0, 4)] :=
  C2_one_fetch_per_decode_call demoMem demoView .i8 [.i8]
    (ptr_memory_source.toConcept { ptr_ := 0, len_ := 4 }) rfl

/-- C3: double slicing composes as interval arithmetic — for valid ranges
with `a + d ≤ b`, `V(a,b)(c,d)` is the same view (same source handle, same
window) as `V(a+c, a+d)`. -/
theorem C3_slice_composition (v : memory_view) (a b c d : Int)
    (h1 : 0 ≤ a) (h2 : 0 ≤ c) (h3 : c ≤ d) (h4 : a + d ≤ b) :
    (v.slice a b).slice c d = v.slice (a + c) (a + d) := by
  simp only [memory_view.slice, memory_view.mk.injEq]
  refine ⟨trivial, by ring, by ring⟩

/-- Witness for C3: `demoView(1,3)(1,2) = demoView(2,3)`. -/
theorem C3_slice_composition_witness :
    (demoView.slice 1 3).slice 1 2 = demoView.slice 2 3 :=
  C3_slice_composition demoView 1 3 1 2 (by norm_num) (by norm_num)
    (by norm_num) (by norm_num)

/-- C4: for a well-formed view, `V(first, END).size() = V.size() - first`
and `V(BEGIN, last).size() = last`, given `0 ≤ first ≤ V.size()` and
`0 ≤ last ≤ V.size()`. -/
theorem C4_open_ended_slice_sizes (v : memory_view) (first last : Int)
    (hbe : v.begin_ ≤ v.end_) (hw : v.end_ - v.begin_ < 2 ^ 64)
    (hf0 : 0 ≤ first) (hfs : first ≤ (v.size : Int))
    (hl0 : 0 ≤ last) (hls : last ≤ (v.size : Int)) :
    ((v.sliceFrom first).size : Int) = (v.size : Int) - first
    ∧ ((v.sliceTo last).size : Int) = last := by
  have hs := size_eq_of_window v hbe hw
  have hA : ((v.sliceFrom first).size : Int) = v.end_ - (v.begin_ + first) := by
    have h := size_eq_of_window (v.sliceFrom first)
      (by simp only [memory_view.sliceFrom]; omega)
      (by simp only [memory_view.sliceFrom]; omega)
    simpa only [memory_view.sliceFrom] using h
  have hB : ((v.sliceTo last).size : Int) = (v.begin_ + last) - v.begin_ := by
    have h := size_eq_of_window (v.sliceTo last)
      (by simp only [memory_view.sliceTo]; omega)
      (by simp only [memory_view.sliceTo]; omega)
    simpa only [memory_view.sliceTo] using h
  constructor <;> omega

/-- Witness for C4: on the 4-byte view, `demoView(1, END)` has size 3 and
`demoView(BEGIN, 3)` has size 3. -/
theorem C4_open_ended_slice_sizes_witness :
    ((demoView.sliceFrom 1).size : Int) = (demoView.size : Int) - 1
    ∧ ((demoView.sliceTo 3).size : Int) = 3 :=
  C4_open_ended_slice_sizes demoView 1 3 (by decide) (by decide) (by decide)
    (by decide) (by decide) (by decide)

/-- C5: `as_span<T>` over a window of `n` bytes succeeds and yields exactly
`n / sizeof(T)` elements (integer division, remainder bytes dropped). -/
theorem C5_as_span_element_count (mem : Int → Nat) (v : memory_view)
    (t : CTy) (n : Nat) (s : source_concept) (hsrc : v.self_ = some s)
    (hn : v.size = n) :
    ((memory_view.as_spanT mem v t).1.map List.length)
      = some (n / t.byteSize) := by
  simp [memory_view.as_spanT, memory_view.as_ptrT, hsrc, hn]

/-- Witness for C5: `as_span<int16_t>` over the 4-byte view has 2 elements. -/
theorem C5_as_span_element_count_witness :
    ((memory_view.as_spanT demoMem demoView .i16).1.map List.length)
      = some 2 :=
  C5_as_span_element_count demoMem demoView .i16 4
    (ptr_memory_source.toConcept { ptr_ := 0, len_ := 4 }) rfl (by decide)

/-- C6: each slicing operator returns a new view with the same source
handle, adjusts only `begin_`/`end_` (relative to the current window start),
and performs no fetch. -/
theorem C6_slicing_shares_source_never_fetches (v : memory_view)
    (first last : Int) :
    ((v.sliceT first last).1.self_ = v.self_
      ∧ (v.sliceT first last).1.begin_ = v.begin_ + first
      ∧ (v.sliceT first last).1.end_ = v.begin_ + last
      ∧ (v.sliceT first last).2 = [])
    ∧ ((v.sliceFromT first).1.self_ = v.self_
      ∧ (v.sliceFromT first).1.begin_ = v.begin_ + first
      ∧ (v.sliceFromT first).1.end_ = v.end_
      ∧ (v.sliceFromT first).2 = [])
    ∧ ((v.sliceToT last).1.self_ = v.self_
      ∧ (v.sliceToT last).1.begin_ = v.begin_
      ∧ (v.sliceToT last).1.end_ = v.begin_ + last
      ∧ (v.sliceToT last).2 = []) :=
  ⟨⟨rfl, rfl, rfl, rfl⟩, ⟨rfl, rfl, rfl, rfl⟩, ⟨rfl, rfl, rfl, rfl⟩⟩

/-- C7: the claim says the tail view of `unpack_head<T1..Tn>` starts at the
sum of the field sizes, so head and tail together cover the window.  The
code slices the tail at `offset = sizeof(std::tuple<T...>)`: for
`unpack_head<int8_t, int32_t>` on the 8-byte view the tail starts at window
offset 8 and is empty, while the claim requires it to start at 5 and hold
the remaining 3 bytes — bytes 5..7 belong to neither head nor tail. -/
theorem C7_unpack_head_tail_bug :
    ((memory_view.unpack_headT mem8 view8 [.i8, .i32]).1.map
        fun r => r.2.begin_) = some 8
    ∧ ((memory_view.unpack_headT mem8 view8 [.i8, .i32]).1.map
        fun r => r.2.size) = some 0
    ∧ view8.size - (CTy.i8.byteSize + CTy.i32.byteSize) = 3
    ∧ (0 : Nat) ≠ 3 := by decide

/-- C8: on the buffer `[1,2,3,4]`, `unpack<int8,int8,int16>()` returns
`(1, 2, 1027)` with `1027 = byte 2 + 256 * byte 3` (little-endian 16-bit at
offset 2). -/
theorem C8_unpack_concrete_values :
    memory_view.unpack demoMem demoView [.i8, .i8, .i16]
      = some [.int 1, .int 2, .int 1027] := by decide

/-- C9: for a pointer-backed source and any range `0 ≤ b ≤ e ≤ len`,
`fetch(b, e)` returns `ptr + b` (the return type is a bare pointer, so no
lifetime anchor is produced). -/
theorem C9_ptr_source_fetch (s : ptr_memory_source) (b e : Int)
    (h0 : 0 ≤ b) (hbe : b ≤ e) (hel : e ≤ (s.len_ : Int)) :
    s.fetch b e = s.ptr_ + b := rfl

/-- Witness for C9: fetching `[1, 3)` from a source based at address 100
returns `100 + 1`. -/
theorem C9_ptr_source_fetch_witness :
    ptr_memory_source.fetch { ptr_ := 100, len_ := 4 } 1 3 = 100 + 1 :=
  C9_ptr_source_fetch { ptr_ := 100, len_ := 4 } 1 3 (by norm_num)
    (by norm_num) (by norm_num)

/-- C10: a default-constructed view has no source handle and
`begin_ = end_ = 0`, so `size()` is 0 and `empty()` is true; `size` and
`empty` are pure arithmetic on `begin_`/`end_` and consult no source. -/
theorem C10_default_view :
    memory_view.mkDefault.self_ = none
    ∧ memory_view.mkDefault.begin_ = 0
    ∧ memory_view.mkDefault.end_ = 0
    ∧ memory_view.mkDefault.size = 0
    ∧ memory_view.mkDefault.empty = true :=
  ⟨rfl, rfl, rfl, by decide, by decide⟩

end mv
